import Mathlib

/-!
# pi-stream-ui: the reconciliation logic of `App.js`

A shallow embedding of the state handling in
`frontend/react-frontend/pi-stream-ui/src/App.js`: the mode watcher
(`fetchMode`), the sensor poller (`fetchSensor`), the stream retrier
(`retryLoadStream`, `attachHls`), the STREAM effect with its cleanup and the
mode toggle (`toggleMode`).

React state is one record (`App`), every `setX` is a record update, network
responses are inputs of the handlers, and the asynchronous loops are total
recursive functions over an oracle giving the outcome of each request.
-/

namespace PiStreamUI

/-! ## Values and configuration -/

/-- A finite double by its exact value `(-1)^neg * man * 2^exp`; the values
the code produces are kept normal (`man` odd, or `man = 0` and `exp = 0`),
which leaves `neg` to tell `-0` from `0`. -/
structure Dbl where
  neg : Bool
  man : Nat
  exp : Int
  deriving DecidableEq, Repr

/-- A JavaScript number. -/
inductive JsNum
  | nan
  | inf (neg : Bool)
  | fin (d : Dbl)
  deriving DecidableEq, Repr

/-- JavaScript values, as far as the mode logic can tell them apart: a parsed
JSON value is one of these (`obj` stands for any object or array). -/
inductive JsVal
  | undefined
  | null
  | bool (b : Bool)
  | num (x : JsNum)
  | str (s : String)
  | obj
  deriving DecidableEq, Repr

/-- JavaScript truthiness (`if (v)`, `v && ...`, `!v`). -/
def JsVal.truthy : JsVal → Bool
  | .undefined => false
  | .null => false
  | .bool b => b
  | .num .nan => false
  | .num (.inf _) => true
  | .num (.fin d) => decide (d.man ≠ 0)
  | .str s => decide (s ≠ "")
  | .obj => true

/-- The constant `MODE.STREAM`. -/
def MODE.STREAM : JsVal := .str "stream"

/-- The constant `MODE.MOTION`. -/
def MODE.MOTION : JsVal := .str "motion"

/-- The constant `MODE.UNKNOWN`. -/
def MODE.UNKNOWN : JsVal := .str "unknown"

/-- The constant `RETRY.maxAttempts`. -/
def RETRY.maxAttempts : Nat := 20

/-- The constant `RETRY.intervalMs`. -/
def RETRY.intervalMs : Nat := 2000

/-- The constant `MAX_POINTS` of the history updater. -/
def MAX_POINTS : Nat := 20

/-! ## Network outcomes -/

/-- Outcome of `fetch(url)` followed by `res.json()`: `networkError` when
`fetch` rejects; otherwise a response with its `ok` flag and its parsed body,
`none` when `res.json()` rejects. -/
inductive FetchResult (β : Type)
  | networkError
  | response (ok : Bool) (body : Option β)
  deriving DecidableEq, Repr

/-- Body of a `/mode` response as the code reads it: the value of
`data?.mode` (`undefined` when the body is `null`, is no object or has no
`mode` key). -/
structure ModeBody where
  mode : JsVal
  deriving DecidableEq, Repr

/-- Outcome of a request of which only `res.ok` is read (the `HEAD` probe of
the stream address, the `POST` of `set-mode`): `networkError` when `fetch`
rejects. -/
inductive HttpResult
  | networkError
  | response (ok : Bool)
  deriving DecidableEq, Repr

/-- Body of a sensor response: the three fields as numbers (`Number(...)`,
and the conversion `/` applies to `data.pressure`). -/
structure Snapshot where
  temperature : JsNum
  humidity : JsNum
  pressure : JsNum
  deriving DecidableEq, Repr

/-- One point of the chart history. -/
structure ChartPoint where
  time : String
  temperature : JsNum
  humidity : JsNum
  pressure : JsNum
  deriving DecidableEq, Repr

/-- What `attachHls` returns: `undef` for the early `return;`, otherwise the
closure `() => hls?.destroy()` over the instance it created, if any. -/
inductive Cleanup
  | undef
  | destroy (hls : Option Nat)
  deriving DecidableEq, Repr

/-! ## State -/

/-- The component state of `App`, the video element with the hls.js instances
bound to it, and a log of the calls the handlers make. -/
structure App where
  sensorData : Option Snapshot
  sensorHistory : List ChartPoint
  lastSensorUpdate : Option String
  imageURL : Option String
  mode : JsVal
  modeLoading : Bool
  apiOnline : Bool
  error : Option String
  /-- Attribute `src` of the video element. -/
  videoSrc : Option String
  /-- Instances of `Hls` attached to the video element and not destroyed, newest first. -/
  hlsLive : List Nat
  /-- Identifier of the next `new Hls()`. -/
  hlsNext : Nat
  /-- What the last run of the STREAM effect returned: `none` for the early
  `return;`, otherwise the cleanup closure over the result of `attachHls`. -/
  effectCleanup : Option Cleanup
  /-- Value of `mode` at the last run of the STREAM effect, `none` before the first. -/
  effectMode : Option JsVal
  /-- Targets of the `POST /set-mode/<target>` requests, newest first. -/
  setModeLog : List JsVal
  /-- Number of `GET /mode` requests made by `toggleMode`. -/
  settlePolls : Nat
  /-- Number of `HEAD` probes of the stream address. -/
  probes : Nat
  /-- Number of calls of `attachHls`. -/
  attachCalls : Nat
  /-- Number of calls `retryLoadStream()` made by `toggleMode`. -/
  acquisitions : Nat
  deriving DecidableEq, Repr

/-- State after the `useState` initialisers, before any effect has run. -/
def App.init : App where
  sensorData := none
  sensorHistory := []
  lastSensorUpdate := none
  imageURL := none
  mode := MODE.UNKNOWN
  modeLoading := false
  apiOnline := true
  error := none
  videoSrc := none
  hlsLive := []
  hlsNext := 0
  effectCleanup := none
  effectMode := none
  setModeLog := []
  settlePolls := 0
  probes := 0
  attachCalls := 0
  acquisitions := 0

/-- The environment of the component: the stream address and what the browser
supports. -/
structure Env where
  streamURL : String
  /-- Whether `videoRef.current` is set. -/
  videoMounted : Bool
  /-- Result of `Hls.isSupported()`. -/
  hlsSupported : Bool
  /-- Whether `video.canPlayType("application/vnd.apple.mpegurl")` is truthy. -/
  canPlayNative : Bool
  deriving DecidableEq, Repr

/-! ## Mode watcher -/

/-- The latch and timer of a polling effect (`let cancelled`, `setInterval`). -/
structure Poller where
  cancelled : Bool
  timerActive : Bool
  deriving DecidableEq, Repr

/-- A polling effect right after it started. -/
def Poller.start : Poller := ⟨false, true⟩

/-- The cleanup of a polling effect: `cancelled = true; clearInterval(id)`. -/
def Poller.teardown (_p : Poller) : Poller := ⟨true, false⟩

/-- The function `fetchMode` from the response on: `cancelled` is the latch at
the time the response is handled. -/
def fetchMode (cancelled : Bool) (r : FetchResult ModeBody) (w : App) : App :=
  match r with
  | .response true (some data) =>
    if cancelled then w
    else
      let w := if data.mode.truthy then { w with mode := data.mode } else w
      { w with apiOnline := true }
  | _ => if !cancelled then { w with apiOnline := false } else w

/-- The target of `toggleMode`: `mode === MODE.MOTION ? MODE.STREAM : MODE.MOTION`. -/
def toggleTarget (mode : JsVal) : JsVal :=
  if mode = MODE.MOTION then MODE.STREAM else MODE.MOTION

/-! ## Double arithmetic of the chart point

The numbers are IEEE-754 doubles. A quotient of naturals is rounded to the
nearest double, ties to even, with gradual underflow and overflow to
infinity, all in integer arithmetic. -/

/-- Number of binary digits of `n`, with `fuel` steps. -/
def bitLenAux : Nat → Nat → Nat
  | 0, _ => 0
  | fuel + 1, n => if n = 0 then 0 else bitLenAux fuel (n / 2) + 1

/-- Number of binary digits of `n` (`0` for `0`). -/
def bitLen (n : Nat) : Nat := bitLenAux n n

/-- Moves the factors two of `m` into the exponent, with `fuel` steps. -/
def stripAux : Nat → Nat → Int → Nat × Int
  | 0, m, e => (m, e)
  | fuel + 1, m, e => if m % 2 = 0 ∧ m ≠ 0 then stripAux fuel (m / 2) (e + 1) else (m, e)

/-- The normal form of `(-1)^neg * m * 2^e`. -/
def Dbl.normalize (neg : Bool) (m : Nat) (e : Int) : Dbl :=
  if m = 0 then ⟨neg, 0, 0⟩
  else
    let p := stripAux m m e
    ⟨neg, p.1, p.2⟩

/-- Nearest integer to `n / d`, ties to even. -/
def roundHalfEven (n d : Nat) : Nat :=
  let q := n / d
  let r := n % d
  if 2 * r < d then q
  else if d < 2 * r then q + 1
  else if q % 2 = 0 then q else q + 1

/-- The fraction `(n / d) / 2^e` as a pair of naturals. -/
def scaleBy (n d : Nat) (e : Int) : Nat × Nat :=
  if 0 ≤ e then (n, d * 2 ^ e.toNat) else (n * 2 ^ (-e).toNat, d)

/-- Exponent of the unit in the last place of the double nearest to `n / d`:
the `e` with `2^52 ≤ (n / d) / 2^e < 2^53`, not below `-1074`. -/
def binadeExp (n d : Nat) : Int :=
  let e : Int := (bitLen n : Int) - (bitLen d : Int) - 52
  let p := scaleBy n d e
  let e := if p.1 / p.2 < 2 ^ 52 then e - 1 else e
  if e < -1074 then -1074 else e

/-- The double nearest to `(-1)^neg * n / d`, for `d ≠ 0`. -/
def roundQuot (neg : Bool) (n d : Nat) : JsNum :=
  let e := binadeExp n d
  let p := scaleBy n d e
  let m := roundHalfEven p.1 p.2
  if 971 < e ∨ (e = 971 ∧ 2 ^ 53 ≤ m) then .inf neg else .fin (Dbl.normalize neg m e)

/-- The number literal `n`. -/
def JsNum.ofNat (n : Nat) : JsNum := roundQuot false n 1

/-- The quotient `x / k` for a positive integer literal `k` (here `1000`). -/
def JsNum.divNat (x : JsNum) (k : Nat) : JsNum :=
  match x with
  | .nan => .nan
  | .inf s => .inf s
  | .fin d =>
    if 0 ≤ d.exp then roundQuot d.neg (d.man * 2 ^ d.exp.toNat) k
    else roundQuot d.neg d.man (k * 2 ^ (-d.exp).toNat)

/-- The string `x.toFixed(2)` by its content: `decimal neg units` is the
text `[-]I.FF` of `units / 100`; `plain x` is `String(x)`, which `toFixed`
returns for `NaN`, the infinities and `|x| ≥ 10^21`. -/
inductive FixedStr
  | decimal (neg : Bool) (units : Nat)
  | plain (x : JsNum)
  deriving DecidableEq, Repr

/-- The method `Number.prototype.toFixed` at 2 digits: for `|x| < 10^21` the
integer `n` with `n / 100` nearest to `|x|`, the larger one on a tie, signed
when `x < 0`. -/
def toFixed2 (x : JsNum) : FixedStr :=
  match x with
  | .nan => .plain .nan
  | .inf s => .plain (.inf s)
  | .fin d =>
    let neg := d.neg && decide (d.man ≠ 0)
    if 0 ≤ d.exp then
      if 10 ^ 21 ≤ d.man * 2 ^ d.exp.toNat then .plain x
      else .decimal neg (d.man * 2 ^ d.exp.toNat * 100)
    else
      let k := 2 ^ (-d.exp).toNat
      if 10 ^ 21 * k ≤ d.man then .plain x
      else .decimal neg ((2 * 100 * d.man + k) / (2 * k))

/-- The function `Number.parseFloat` on a string produced by `toFixed(2)`. -/
def parseFloat (s : FixedStr) : JsNum :=
  match s with
  | .decimal neg units => roundQuot neg units 100
  | .plain x => x

/-- The text of a `toFixed(2)` string in decimal form, as rendered. -/
def FixedStr.text : FixedStr → Option String
  | .decimal neg units =>
    let frac := units % 100
    some ((if neg then "-" else "") ++ Nat.repr (units / 100) ++ "." ++
      Nat.repr (frac / 10) ++ Nat.repr (frac % 10))
  | .plain .nan => some "NaN"
  | .plain (.inf false) => some "Infinity"
  | .plain (.inf true) => some "-Infinity"
  | .plain (.fin _) => none

/-! ## Sensor poller -/

/-- The chart entry built by the `setSensorHistory` updater from the response
body, `time` being `new Date().toLocaleTimeString()` there. -/
def chartEntry (time : String) (data : Snapshot) : ChartPoint where
  time := time
  temperature := parseFloat (toFixed2 data.temperature)
  humidity := parseFloat (toFixed2 data.humidity)
  pressure := parseFloat (toFixed2 (data.pressure.divNat 1000))

/-- The pressure line of the render: `(Number(sensorData.pressure) / 1000).toFixed(2)`. -/
def renderPressure (data : Snapshot) : FixedStr :=
  toFixed2 (data.pressure.divNat 1000)

/-- The call `xs.slice(-n)`: the last `n` elements. -/
def sliceLast {α : Type} (n : Nat) (xs : List α) : List α :=
  xs.drop (xs.length - n)

/-- The function `fetchSensor` from the response on: `cancelled` is the latch
at the time the response is handled, `stamp` and `time` are the two readings
of the clock. -/
def fetchSensor (cancelled : Bool) (r : FetchResult Snapshot) (stamp time : String)
    (w : App) : App :=
  match r with
  | .response true (some data) =>
    if cancelled then w
    else
      { w with
        sensorData := some data
        lastSensorUpdate := some stamp
        sensorHistory := sliceLast MAX_POINTS (w.sensorHistory ++ [chartEntry time data]) }
  | _ => if !cancelled then { w with error := some "Sensor offline" } else w

/-! ## Media attachment and stream retrier -/

/-- The function `attachHls`: the state after the call and the value it returns. -/
def attachHls (env : Env) (url : String) (w : App) : App × Cleanup :=
  let w := { w with attachCalls := w.attachCalls + 1 }
  if !env.videoMounted then (w, .undef)
  else if env.hlsSupported then
    ({ w with hlsLive := w.hlsNext :: w.hlsLive, hlsNext := w.hlsNext + 1 },
      .destroy (some w.hlsNext))
  else if env.canPlayNative then ({ w with videoSrc := some url }, .destroy none)
  else ({ w with error := some "HLS is not supported in this browser." }, .destroy none)

/-- The call `cleanup?.()` on a value returned by `attachHls`: `hls?.destroy()`. -/
def Cleanup.run (c : Cleanup) (w : App) : App :=
  match c with
  | .undef => w
  | .destroy none => w
  | .destroy (some h) => { w with hlsLive := w.hlsLive.filter (fun x => x != h) }

/-- The closure `check` of `retryLoadStream`, run until it schedules no further
probe: `probe n` is the outcome of the probe made when `attempts` is `n`. The
value returned by `attachHls` is the result of the `.then` callback, which
nothing reads. -/
def check (env : Env) (probe : Nat → HttpResult) (attempts : Nat) (w : App) : App :=
  let w := { w with probes := w.probes + 1 }
  match probe attempts with
  | .response true => (attachHls env env.streamURL w).1
  | _ =>
    let attempts := attempts + 1
    if attempts < RETRY.maxAttempts then check env probe attempts w
    else { w with error := some "Stream unavailable after retries." }
termination_by RETRY.maxAttempts - attempts

/-- The function `retryLoadStream`: `let attempts = 0; check();`. -/
def retryLoadStream (env : Env) (probe : Nat → HttpResult) (w : App) : App :=
  check env probe 0 w

/-! ## The STREAM effect -/

/-- The cleanup returned by the STREAM effect: reset the video element, then
`cleanup?.()`. -/
def streamEffectCleanup (env : Env) (c : Cleanup) (w : App) : App :=
  let w := if env.videoMounted then { w with videoSrc := none } else w
  c.run w

/-- The body of the STREAM effect, run for the current `mode`. -/
def streamEffect (env : Env) (w : App) : App :=
  if w.mode ≠ MODE.STREAM then { w with effectCleanup := none, effectMode := some w.mode }
  else
    let r := attachHls env env.streamURL w
    { r.1 with effectCleanup := some r.2, effectMode := some w.mode }

/-- What React does with the STREAM effect after a render: when the dependency
`mode` differs from its value at the last run, the cleanup returned by that
run (if any) is called and the effect runs again. -/
def commit (env : Env) (w : App) : App :=
  if w.effectMode = some w.mode then w
  else
    let w :=
      match w.effectCleanup with
      | none => w
      | some c => streamEffectCleanup env c w
    streamEffect env w

/-! ## Mode toggle -/

/-- The settlement loop of `toggleMode` from index `i` on: `poll i` is the
outcome of `fetch(.../mode).then((r) => r.json())` in iteration `i`. The
result is `none` when a poll throws, otherwise the value of `next` after the
loop. -/
def settleLoop (poll : Nat → FetchResult ModeBody) (i : Nat) (w : App) : App × Option JsVal :=
  if i < 10 then
    let w := { w with settlePolls := w.settlePolls + 1 }
    match poll i with
    | .response _ (some m) =>
      if m.mode.truthy && m.mode != MODE.UNKNOWN then (w, some m.mode)
      else settleLoop poll (i + 1) w
    | _ => (w, none)
  else (w, some .null)
termination_by 10 - i

/-- The `catch` block of `toggleMode`. -/
def toggleFailed (w : App) : App :=
  { w with error := some "Failed to toggle mode" }

/-- The function `toggleMode`: `setMode target` is the outcome of the `POST`
to `/set-mode/<target>`, `poll` the outcomes of the settlement polls. The call
`retryLoadStream()` returns at once, its probes are answered later; it is
recorded in `acquisitions`. -/
def toggleMode (setMode : JsVal → HttpResult) (poll : Nat → FetchResult ModeBody)
    (w : App) : App :=
  let target := toggleTarget w.mode
  let w := { w with modeLoading := true }
  let w := { w with error := none }
  let w := { w with setModeLog := target :: w.setModeLog }
  let w :=
    match setMode target with
    | .response true =>
      match settleLoop poll 0 w with
      | (w, none) => toggleFailed w
      | (w, some next) =>
        if !next.truthy then toggleFailed w
        else
          let w := { w with mode := next }
          if next = MODE.STREAM then { w with acquisitions := w.acquisitions + 1 } else w
    | _ => toggleFailed w
  { w with modeLoading := false }

/-- A response with its `ok` flag replaced. -/
def FetchResult.setOk {β : Type} (b : Bool) : FetchResult β → FetchResult β
  | .networkError => .networkError
  | .response _ body => .response b body

/-- The sensor poller run over a sequence of handled responses, each with the
latch and the two clock readings at the time it is handled. -/
def sensorPolls (evs : List (Bool × FetchResult Snapshot × String × String)) (w : App) : App :=
  evs.foldl (fun w ev => fetchSensor ev.1 ev.2.1 ev.2.2.1 ev.2.2.2 w) w

/-- A successful sensor response, handled while the poller is live. -/
def sensorOk (p : String × String × Snapshot) : Bool × FetchResult Snapshot × String × String :=
  (false, .response true (some p.2.2), p.1, p.2.1)

/-! ## A toggle from "motion" to "stream" -/

/-- A browser in which hls.js is supported and the video element is mounted. -/
def hlsBrowser : Env := ⟨"/hls/stream.m3u8", true, true, false⟩

/-- The state after the mount and a first answer "motion" to the mode watcher,
each followed by the run of the effects. -/
def motionState : App :=
  commit hlsBrowser
    (fetchMode false (.response true (some ⟨MODE.MOTION⟩)) (commit hlsBrowser App.init))

/-- The state after `toggleMode` from `motionState`, the set-mode call
succeeding and the first settlement poll carrying "stream". -/
def toggledState : App :=
  toggleMode (fun _ => .response true) (fun _ => .response true (some ⟨MODE.STREAM⟩))
    motionState

/-- The state after React has run the STREAM effect for the new Mode. -/
def attachedState : App := commit hlsBrowser toggledState

/-- The state after the first probe of the acquisition started by the toggle
has succeeded. -/
def probedState : App := retryLoadStream hlsBrowser (fun _ => .response true) attachedState

/-! ## Lemmas on the settlement loop -/

theorem settleLoop_end (poll : Nat → FetchResult ModeBody) (i : Nat) (w : App)
    (hi : 10 ≤ i) : settleLoop poll i w = (w, some .null) := by
  rw [settleLoop]
  simp [Nat.not_lt.mpr hi]

theorem settleLoop_settled (poll : Nat → FetchResult ModeBody) (i : Nat) (w : App)
    (ok : Bool) (m : JsVal) (hi : i < 10) (hp : poll i = .response ok (some ⟨m⟩))
    (hm : m.truthy = true) (hu : m ≠ MODE.UNKNOWN) :
    settleLoop poll i w = ({ w with settlePolls := w.settlePolls + 1 }, some m) := by
  rw [settleLoop]
  simp [hi, hp, hm, hu]

theorem settleLoop_unsettled (poll : Nat → FetchResult ModeBody) (i : Nat) (w : App)
    (ok : Bool) (m : JsVal) (hi : i < 10) (hp : poll i = .response ok (some ⟨m⟩))
    (hm : m.truthy = false ∨ m = MODE.UNKNOWN) :
    settleLoop poll i w
      = settleLoop poll (i + 1) { w with settlePolls := w.settlePolls + 1 } := by
  rw [settleLoop]
  rcases hm with hm | hm <;> simp [hi, hp, hm]

theorem settleLoop_throws (poll : Nat → FetchResult ModeBody) (i : Nat) (w : App)
    (hi : i < 10) (hp : poll i = .networkError ∨ ∃ ok, poll i = .response ok none) :
    settleLoop poll i w = ({ w with settlePolls := w.settlePolls + 1 }, none) := by
  rw [settleLoop]
  rcases hp with hp | ⟨ok, hp⟩ <;> simp [hi, hp]

theorem settleLoop_skip (poll : Nat → FetchResult ModeBody) (k : Nat) :
    ∀ (i : Nat) (w : App), i + k ≤ 10 →
      (∀ j, i ≤ j → j < i + k →
        ∃ ok m, poll j = .response ok (some ⟨m⟩) ∧ (m.truthy = false ∨ m = MODE.UNKNOWN)) →
      settleLoop poll i w
        = settleLoop poll (i + k) { w with settlePolls := w.settlePolls + k } := by
  induction k with
  | zero => intro i w _ _; rfl
  | succ k ih =>
    intro i w hik h
    obtain ⟨ok, m, hp, hm⟩ := h i (Nat.le_refl i) (by omega)
    rw [settleLoop_unsettled poll i w ok m (by omega) hp hm,
      ih (i + 1) _ (by omega) (fun j h1 h2 => h j (by omega) (by omega))]
    have e : i + 1 + k = i + (k + 1) := by omega
    rw [e]
    congr 2
    simp only [Nat.add_assoc, Nat.add_comm 1 k]

theorem settleLoop_frame (poll : Nat → FetchResult ModeBody) (n : Nat) :
    ∀ (i : Nat) (w : App), 10 - i = n →
      (settleLoop poll i w).1
        = { w with settlePolls := (settleLoop poll i w).1.settlePolls } := by
  induction n with
  | zero =>
    intro i w h
    rw [settleLoop_end poll i w (by omega)]
  | succ n ih =>
    intro i w h
    have hi : i < 10 := by omega
    rw [settleLoop]
    simp only [hi, if_true]
    split
    · split
      · rfl
      · have := ih (i + 1) { w with settlePolls := w.settlePolls + 1 } (by omega)
        rw [this]
    · rfl

theorem settleLoop_setModeLog (poll : Nat → FetchResult ModeBody) (i : Nat) (w : App) :
    (settleLoop poll i w).1.setModeLog = w.setModeLog := by
  rw [settleLoop_frame poll (10 - i) i w rfl]

theorem settleLoop_setOk (poll : Nat → FetchResult ModeBody) (f : Nat → Bool) (n : Nat) :
    ∀ (i : Nat) (w : App), 10 - i = n →
      settleLoop (fun j => (poll j).setOk (f j)) i w = settleLoop poll i w := by
  induction n with
  | zero =>
    intro i w h
    rw [settleLoop_end _ i w (by omega), settleLoop_end _ i w (by omega)]
  | succ n ih =>
    intro i w h
    have hi : i < 10 := by omega
    have ih1 := fun w => ih (i + 1) w (by omega)
    rw [settleLoop]
    conv_rhs => rw [settleLoop]
    simp only [hi, if_true, ih1]
    cases hp : poll i with
    | networkError => simp [FetchResult.setOk]
    | response ok body =>
      cases body with
      | none => simp [FetchResult.setOk]
      | some m => simp [FetchResult.setOk]

/-! ## Lemmas on the stream retrier -/

theorem check_ok (env : Env) (probe : Nat → HttpResult) (a : Nat) (w : App)
    (hp : probe a = .response true) :
    check env probe a w
      = (attachHls env env.streamURL { w with probes := w.probes + 1 }).1 := by
  rw [check]
  simp [hp]

theorem check_retry (env : Env) (probe : Nat → HttpResult) (a : Nat) (w : App)
    (hp : probe a ≠ .response true) (ha : a + 1 < RETRY.maxAttempts) :
    check env probe a w = check env probe (a + 1) { w with probes := w.probes + 1 } := by
  rw [check]
  cases h : probe a with
  | networkError => simp [ha]
  | response ok =>
    cases ok with
    | true => exact absurd h hp
    | false => simp [ha]

theorem check_giveUp (env : Env) (probe : Nat → HttpResult) (a : Nat) (w : App)
    (hp : probe a ≠ .response true) (ha : ¬ a + 1 < RETRY.maxAttempts) :
    check env probe a w
      = { w with probes := w.probes + 1, error := some "Stream unavailable after retries." } := by
  rw [check]
  cases h : probe a with
  | networkError => simp [ha]
  | response ok =>
    cases ok with
    | true => exact absurd h hp
    | false => simp [ha]

theorem check_skip (env : Env) (probe : Nat → HttpResult) (k : Nat) :
    ∀ (a : Nat) (w : App), a + k < RETRY.maxAttempts →
      (∀ j, a ≤ j → j < a + k → probe j ≠ .response true) →
      check env probe a w = check env probe (a + k) { w with probes := w.probes + k } := by
  induction k with
  | zero => intro a w _ _; rfl
  | succ k ih =>
    intro a w hak h
    rw [check_retry env probe a w (h a (Nat.le_refl a) (by omega)) (by omega),
      ih (a + 1) _ (by omega) (fun j h1 h2 => h j (by omega) (by omega))]
    have e : a + 1 + k = a + (k + 1) := by omega
    rw [e]
    congr 2
    simp only [Nat.add_assoc, Nat.add_comm 1 k]

/-! ## Stream acquisition -/

/-- C5: with `maxAttempts = 20`, a probe that fails `k` times (`k ≤ 19`) and
then succeeds gives exactly `k + 1` probes and one call of `attachHls`, and
the error notice is what that call leaves (never the message of the
exhausted retries); a probe that fails every time gives exactly 20 probes,
the message "Stream unavailable after retries.", no call of `attachHls` and
no instance attached. -/
theorem retryLoadStream_attempts (env : Env) (probe : Nat → HttpResult) (w : App) :
    (∀ k, k ≤ 19 → (∀ i, i < k → probe i ≠ .response true) → probe k = .response true →
      (retryLoadStream env probe w).probes = w.probes + (k + 1) ∧
      (retryLoadStream env probe w).attachCalls = w.attachCalls + 1 ∧
      (retryLoadStream env probe w).error
        = (if env.videoMounted = true ∧ env.hlsSupported = false ∧ env.canPlayNative = false
            then some "HLS is not supported in this browser." else w.error)) ∧
    ((∀ i, i < 20 → probe i ≠ .response true) →
      (retryLoadStream env probe w).probes = w.probes + 20 ∧
      (retryLoadStream env probe w).error = some "Stream unavailable after retries." ∧
      (retryLoadStream env probe w).attachCalls = w.attachCalls ∧
      (retryLoadStream env probe w).hlsLive = w.hlsLive) := by
  constructor
  · intro k hk hfail hok
    have h := check_skip env probe k 0 w (by simp [RETRY.maxAttempts]; omega)
      (fun j _ h2 => hfail j (by omega))
    simp only [Nat.zero_add] at h
    rw [retryLoadStream, h, check_ok env probe k _ hok]
    unfold attachHls
    cases env.videoMounted <;> cases env.hlsSupported <;> cases env.canPlayNative <;>
      simp [Nat.add_assoc]
  · intro hfail
    have h := check_skip env probe 19 0 w (by simp [RETRY.maxAttempts])
      (fun j _ h2 => hfail j (by omega))
    simp only [Nat.zero_add] at h
    rw [retryLoadStream, h,
      check_giveUp env probe 19 _ (hfail 19 (by omega)) (by simp [RETRY.maxAttempts])]
    simp

/-- Witness of C5: three failures then a success (4 probes, one attachment,
no error), and a stream that never answers (20 probes, the error, no
attachment). -/
theorem retryLoadStream_attempts_witness :
    ((retryLoadStream ⟨"/hls/stream.m3u8", true, true, false⟩
        (fun i => if i < 3 then .response false else .response true) App.init).probes = 4 ∧
      (retryLoadStream ⟨"/hls/stream.m3u8", true, true, false⟩
        (fun i => if i < 3 then .response false else .response true) App.init).attachCalls = 1 ∧
      (retryLoadStream ⟨"/hls/stream.m3u8", true, true, false⟩
        (fun i => if i < 3 then .response false else .response true) App.init).error = none) ∧
    ((retryLoadStream ⟨"/hls/stream.m3u8", true, true, false⟩
        (fun _ => .networkError) App.init).probes = 20 ∧
      (retryLoadStream ⟨"/hls/stream.m3u8", true, true, false⟩
        (fun _ => .networkError) App.init).error = some "Stream unavailable after retries." ∧
      (retryLoadStream ⟨"/hls/stream.m3u8", true, true, false⟩
        (fun _ => .networkError) App.init).attachCalls = 0) := by
  constructor
  · have h := (retryLoadStream_attempts ⟨"/hls/stream.m3u8", true, true, false⟩
      (fun i => if i < 3 then .response false else .response true) App.init).1 3
      (by decide) (by decide) (by decide)
    exact ⟨h.1, h.2.1, h.2.2⟩
  · have h := (retryLoadStream_attempts ⟨"/hls/stream.m3u8", true, true, false⟩
      (fun _ => .networkError) App.init).2 (by intro i _; simp)
    exact ⟨h.1, h.2.1, h.2.2.1⟩

/-! ## Mode toggle -/

/-- C6: after a successful set-mode call, `k ≤ 9` settlement polls that carry
"unknown" or no (falsy) mode and then a poll carrying a truthy mode `m` other
than "unknown": `toggleMode` makes exactly `k + 1` settlement polls, publishes
`m`, leaves the loading flag false and starts stream acquisition exactly when
`m` is "stream". -/
theorem toggleMode_settles (setMode : JsVal → HttpResult) (poll : Nat → FetchResult ModeBody)
    (w : App) (k : Nat) (m : JsVal)
    (hset : setMode (toggleTarget w.mode) = .response true)
    (hk : k ≤ 9)
    (hwait : ∀ i, i < k →
      ∃ ok v, poll i = .response ok (some ⟨v⟩) ∧ (v.truthy = false ∨ v = MODE.UNKNOWN))
    (hpoll : ∃ ok, poll k = .response ok (some ⟨m⟩))
    (hm : m.truthy = true) (hu : m ≠ MODE.UNKNOWN) :
    (toggleMode setMode poll w).settlePolls = w.settlePolls + (k + 1) ∧
    (toggleMode setMode poll w).mode = m ∧
    (toggleMode setMode poll w).modeLoading = false ∧
    (toggleMode setMode poll w).acquisitions
      = w.acquisitions + (if m = MODE.STREAM then 1 else 0) := by
  obtain ⟨ok, hpoll⟩ := hpoll
  have h1 := fun w0 => settleLoop_skip poll k 0 w0 (by omega)
    (fun j _ h2 => hwait j (by omega))
  simp only [Nat.zero_add] at h1
  have h2 := fun w0 => settleLoop_settled poll k w0 ok m (by omega) hpoll hm hu
  simp only [toggleMode, hset, h1, h2, hm]
  by_cases hs : m = MODE.STREAM <;> simp [hs, Nat.add_assoc]

/-- Witness of C6: three polls carrying "unknown", then "motion": four polls,
Mode "motion", loading flag false, no stream acquisition. -/
theorem toggleMode_settles_witness :
    (toggleMode (fun _ => .response true)
      (fun i => .response true (some ⟨if i < 3 then MODE.UNKNOWN else MODE.MOTION⟩))
      { App.init with mode := MODE.STREAM }).settlePolls = 4 ∧
    (toggleMode (fun _ => .response true)
      (fun i => .response true (some ⟨if i < 3 then MODE.UNKNOWN else MODE.MOTION⟩))
      { App.init with mode := MODE.STREAM }).mode = MODE.MOTION ∧
    (toggleMode (fun _ => .response true)
      (fun i => .response true (some ⟨if i < 3 then MODE.UNKNOWN else MODE.MOTION⟩))
      { App.init with mode := MODE.STREAM }).modeLoading = false ∧
    (toggleMode (fun _ => .response true)
      (fun i => .response true (some ⟨if i < 3 then MODE.UNKNOWN else MODE.MOTION⟩))
      { App.init with mode := MODE.STREAM }).acquisitions = 0 :=
  toggleMode_settles (fun _ => .response true)
    (fun i => .response true (some ⟨if i < 3 then MODE.UNKNOWN else MODE.MOTION⟩))
    { App.init with mode := MODE.STREAM } 3 MODE.MOTION rfl (by decide)
    (fun i hi => ⟨true, MODE.UNKNOWN, by simp [hi], Or.inr rfl⟩)
    ⟨true, by simp⟩ (by decide) (by decide)

/-- C7: after a successful set-mode call, ten settlement polls in a row that
carry "unknown": `toggleMode` makes exactly ten settlement polls and fails:
an error notice is set, Mode is what it was, no stream acquisition is
started and the loading flag is false. -/
theorem toggleMode_timeout (setMode : JsVal → HttpResult) (poll : Nat → FetchResult ModeBody)
    (w : App)
    (hset : setMode (toggleTarget w.mode) = .response true)
    (hwait : ∀ i, i < 10 → ∃ ok, poll i = .response ok (some ⟨MODE.UNKNOWN⟩)) :
    (toggleMode setMode poll w).settlePolls = w.settlePolls + 10 ∧
    (toggleMode setMode poll w).error = some "Failed to toggle mode" ∧
    (toggleMode setMode poll w).mode = w.mode ∧
    (toggleMode setMode poll w).acquisitions = w.acquisitions ∧
    (toggleMode setMode poll w).modeLoading = false := by
  have h1 := fun w0 => settleLoop_skip poll 10 0 w0 (by omega)
    (fun j _ h2 => by
      obtain ⟨ok, h⟩ := hwait j (by omega)
      exact ⟨ok, MODE.UNKNOWN, h, Or.inr rfl⟩)
  have h2 := fun w0 => settleLoop_end poll 10 w0 (Nat.le_refl 10)
  simp only [Nat.zero_add] at h1
  simp [toggleMode, hset, h1, h2, toggleFailed, JsVal.truthy]

/-- Witness of C7: from Mode "motion", a backend that answers "unknown" to
every settlement poll. -/
theorem toggleMode_timeout_witness :
    (toggleMode (fun _ => .response true) (fun _ => .response true (some ⟨MODE.UNKNOWN⟩))
      { App.init with mode := MODE.MOTION }).settlePolls = 10 ∧
    (toggleMode (fun _ => .response true) (fun _ => .response true (some ⟨MODE.UNKNOWN⟩))
      { App.init with mode := MODE.MOTION }).error = some "Failed to toggle mode" ∧
    (toggleMode (fun _ => .response true) (fun _ => .response true (some ⟨MODE.UNKNOWN⟩))
      { App.init with mode := MODE.MOTION }).mode = MODE.MOTION ∧
    (toggleMode (fun _ => .response true) (fun _ => .response true (some ⟨MODE.UNKNOWN⟩))
      { App.init with mode := MODE.MOTION }).acquisitions = 0 ∧
    (toggleMode (fun _ => .response true) (fun _ => .response true (some ⟨MODE.UNKNOWN⟩))
      { App.init with mode := MODE.MOTION }).modeLoading = false :=
  toggleMode_timeout (fun _ => .response true) (fun _ => .response true (some ⟨MODE.UNKNOWN⟩))
    { App.init with mode := MODE.MOTION } rfl (fun _ _ => ⟨true, rfl⟩)

/-- C10: after a successful set-mode call, when settlement poll number `j`
(`1 ≤ j ≤ 10`) fails at transport level or has a body that cannot be parsed,
all earlier polls having carried "unknown", the toggle ends there: exactly
`j` settlement polls, the notice "Failed to toggle mode", Mode as it was, no
stream acquisition, loading flag false. A settlement poll with a non-OK
status and a body that parses is treated like any other: for every set-mode
outcome, every sequence of settlement responses and every state, replacing
the `ok` flags of the responses leaves the result of `toggleMode` unchanged;
so a non-OK response that carries a truthy mode other than "unknown" settles
the toggle on that mode. -/
theorem toggleMode_poll_throws (setMode : JsVal → HttpResult)
    (poll : Nat → FetchResult ModeBody) (w : App) (j : Nat)
    (hset : setMode (toggleTarget w.mode) = .response true)
    (hj : 1 ≤ j ∧ j ≤ 10)
    (hwait : ∀ i, i < j - 1 → ∃ ok, poll i = .response ok (some ⟨MODE.UNKNOWN⟩))
    (hfail : poll (j - 1) = .networkError ∨ ∃ ok, poll (j - 1) = .response ok none) :
    ((toggleMode setMode poll w).settlePolls = w.settlePolls + j ∧
      (toggleMode setMode poll w).error = some "Failed to toggle mode" ∧
      (toggleMode setMode poll w).mode = w.mode ∧
      (toggleMode setMode poll w).acquisitions = w.acquisitions ∧
      (toggleMode setMode poll w).modeLoading = false) ∧
    (∀ (setMode2 : JsVal → HttpResult) (poll2 : Nat → FetchResult ModeBody) (w2 : App)
        (f : Nat → Bool),
      toggleMode setMode2 (fun i => (poll2 i).setOk (f i)) w2
        = toggleMode setMode2 poll2 w2) ∧
    (∀ (setMode2 : JsVal → HttpResult) (poll2 : Nat → FetchResult ModeBody) (w2 : App)
        (m : JsVal),
      setMode2 (toggleTarget w2.mode) = .response true →
      poll2 0 = .response false (some ⟨m⟩) → m.truthy = true → m ≠ MODE.UNKNOWN →
      (toggleMode setMode2 poll2 w2).mode = m ∧
        (toggleMode setMode2 poll2 w2).settlePolls = w2.settlePolls + 1 ∧
        (toggleMode setMode2 poll2 w2).error = none) := by
  refine ⟨?_, ?_, ?_⟩
  · have h1 := fun w0 => settleLoop_skip poll (j - 1) 0 w0 (by omega)
      (fun i _ h2 => by
        obtain ⟨ok, h⟩ := hwait i (by omega)
        exact ⟨ok, MODE.UNKNOWN, h, Or.inr rfl⟩)
    have h2 := fun w0 => settleLoop_throws poll (j - 1) w0 (by omega) hfail
    simp only [Nat.zero_add] at h1
    have e : w.settlePolls + (j - 1) + 1 = w.settlePolls + j := by omega
    simp [toggleMode, hset, h1, h2, toggleFailed, e]
  · intro setMode2 poll2 w2 f
    have h := fun w0 => settleLoop_setOk poll2 f 10 0 w0 rfl
    simp only [toggleMode, h]
  · intro setMode2 poll2 w2 m hset2 hp hm hu
    have h := fun w0 => settleLoop_settled poll2 0 w0 false m (by omega) hp hm hu
    simp only [toggleMode, hset2, h, hm]
    by_cases hs : m = MODE.STREAM <;> simp [hs]

/-- Witness of C10: two polls carrying "unknown", then a transport failure on
the third: three polls and the failure notice; and a first poll answered with
a non-OK status and the body "motion" settles the toggle like an OK one. -/
theorem toggleMode_poll_throws_witness :
    ((toggleMode (fun _ => .response true)
        (fun i => if i < 2 then .response true (some ⟨MODE.UNKNOWN⟩) else .networkError)
        { App.init with mode := MODE.MOTION }).settlePolls = 3 ∧
      (toggleMode (fun _ => .response true)
        (fun i => if i < 2 then .response true (some ⟨MODE.UNKNOWN⟩) else .networkError)
        { App.init with mode := MODE.MOTION }).error = some "Failed to toggle mode" ∧
      (toggleMode (fun _ => .response true)
        (fun i => if i < 2 then .response true (some ⟨MODE.UNKNOWN⟩) else .networkError)
        { App.init with mode := MODE.MOTION }).mode = MODE.MOTION ∧
      (toggleMode (fun _ => .response true)
        (fun i => if i < 2 then .response true (some ⟨MODE.UNKNOWN⟩) else .networkError)
        { App.init with mode := MODE.MOTION }).acquisitions = 0 ∧
      (toggleMode (fun _ => .response true)
        (fun i => if i < 2 then .response true (some ⟨MODE.UNKNOWN⟩) else .networkError)
        { App.init with mode := MODE.MOTION }).modeLoading = false) ∧
    toggleMode (fun _ => .response true) (fun _ => .response false (some ⟨MODE.MOTION⟩))
        { App.init with mode := MODE.STREAM }
      = toggleMode (fun _ => .response true) (fun _ => .response true (some ⟨MODE.MOTION⟩))
        { App.init with mode := MODE.STREAM } ∧
    ((toggleMode (fun _ => .response true) (fun _ => .response false (some ⟨MODE.MOTION⟩))
        { App.init with mode := MODE.STREAM }).mode = MODE.MOTION ∧
      (toggleMode (fun _ => .response true) (fun _ => .response false (some ⟨MODE.MOTION⟩))
        { App.init with mode := MODE.STREAM }).settlePolls = 1 ∧
      (toggleMode (fun _ => .response true) (fun _ => .response false (some ⟨MODE.MOTION⟩))
        { App.init with mode := MODE.STREAM }).error = none) :=
  have h := toggleMode_poll_throws (fun _ => .response true)
    (fun i => if i < 2 then .response true (some ⟨MODE.UNKNOWN⟩) else .networkError)
    { App.init with mode := MODE.MOTION } 3 rfl (by decide)
    (fun i hi => ⟨true, by simp [show i < 2 from hi]⟩) (Or.inl (by simp))
  ⟨h.1,
    h.2.1 (fun _ => .response true) (fun _ => .response true (some ⟨MODE.MOTION⟩))
      { App.init with mode := MODE.STREAM } (fun _ => false),
    h.2.2 (fun _ => .response true) (fun _ => .response false (some ⟨MODE.MOTION⟩))
      { App.init with mode := MODE.STREAM } MODE.MOTION rfl rfl (by decide) (by decide)⟩

/-- C2, as stated, fails: from Mode "unknown" the target sent to the backend
is "motion", not "stream". -/
theorem toggleMode_unknown_targets_motion :
    (toggleMode (fun _ => .networkError) (fun _ => .networkError) App.init).setModeLog
        = MODE.MOTION :: [] ∧
      MODE.MOTION ≠ MODE.STREAM ∧ App.init.mode = MODE.UNKNOWN := by
  decide

/-- C2, amended: the target `toggleMode` sends to the backend is "stream" when
the current Mode is "motion" and "motion" for every other Mode, "stream" and
"unknown" included. -/
theorem toggleMode_target (setMode : JsVal → HttpResult) (poll : Nat → FetchResult ModeBody)
    (w : App) :
    (toggleMode setMode poll w).setModeLog
        = (if w.mode = MODE.MOTION then MODE.STREAM else MODE.MOTION) :: w.setModeLog ∧
      toggleTarget MODE.MOTION = MODE.STREAM ∧
      toggleTarget MODE.STREAM = MODE.MOTION ∧
      toggleTarget MODE.UNKNOWN = MODE.MOTION := by
  refine ⟨?_, by decide, by decide, by decide⟩
  have key : ∀ r : App × Option JsVal,
      r.1.setModeLog = toggleTarget w.mode :: w.setModeLog →
      (match r with
        | (w, none) => toggleFailed w
        | (w, some next) =>
          if (!next.truthy) = true then toggleFailed w
          else
            if next = MODE.STREAM then
              { ({ w with mode := next } : App) with
                acquisitions := ({ w with mode := next } : App).acquisitions + 1 }
            else { w with mode := next }).setModeLog
        = toggleTarget w.mode :: w.setModeLog := by
    rintro ⟨w1, o⟩ h
    cases o with
    | none => exact h
    | some next =>
      simp only
      split
      · exact h
      · split <;> exact h
  simp only [toggleMode]
  cases setMode (toggleTarget w.mode) with
  | networkError => rfl
  | response ok =>
    cases ok with
    | false => rfl
    | true => exact key _ (settleLoop_setModeLog poll 0 _)

/-! ## Mode watcher and cancellation -/

/-- C1, as stated, fails: with Mode "stream", a successful poll carrying
"unknown" changes Mode to "unknown". -/
theorem fetchMode_unknown_overwrites :
    ({ App.init with mode := MODE.STREAM } : App).mode = MODE.STREAM ∧
      (fetchMode false (.response true (some ⟨MODE.UNKNOWN⟩))
        { App.init with mode := MODE.STREAM }).mode = MODE.UNKNOWN ∧
      MODE.UNKNOWN ≠ MODE.STREAM := by
  decide

/-- C1, amended: a poll handled by a live watcher publishes the mode value it
carries whenever the response is OK, its body parses and the value is truthy,
"unknown" included; in every other case (transport error, non-OK status, body
that cannot be parsed, no or falsy mode value, watcher torn down) Mode is
what it was. -/
theorem fetchMode_mode (cancelled : Bool) (r : FetchResult ModeBody) (w : App) :
    (fetchMode cancelled r w).mode
      = (match r with
        | .response true (some data) =>
          if cancelled = false ∧ data.mode.truthy = true then data.mode else w.mode
        | _ => w.mode) := by
  unfold fetchMode
  split
  · cases cancelled <;> simp
    split <;> rfl
  · cases cancelled <;> rfl

/-- C8: once the sensor poller or the mode watcher has been torn down, the
response of a poll that was in flight changes nothing, whatever it is: the
whole state, and so the sensor reading, the history, the stamp, Mode, the
connectivity flag and the error notice, is what it was. -/
theorem teardown_suppresses (p : Poller) (w : App) :
    (∀ (r : FetchResult Snapshot) (stamp time : String),
      fetchSensor p.teardown.cancelled r stamp time w = w) ∧
    (∀ r : FetchResult ModeBody, fetchMode p.teardown.cancelled r w = w) ∧
    p.teardown.timerActive = false := by
  refine ⟨?_, ?_, rfl⟩
  · intro r stamp time
    unfold fetchSensor
    split <;> simp [Poller.teardown]
  · intro r
    unfold fetchMode
    split <;> simp [Poller.teardown]

/-! ## Sensor history and pressure -/

/-- C9: a snapshot with pressure 101325 (Pa) is rendered as "101.33" (kPa),
and its chart point holds the double that `101.33` denotes: the quotient
by 1000 rounded to 2 decimals. -/
theorem pressure_101325 (time : String) (t h : JsNum) :
    (renderPressure ⟨t, h, JsNum.ofNat 101325⟩).text = some "101.33" ∧
    renderPressure ⟨t, h, JsNum.ofNat 101325⟩ = .decimal false 10133 ∧
    (chartEntry time ⟨t, h, JsNum.ofNat 101325⟩).pressure = roundQuot false 10133 100 ∧
    (JsNum.ofNat 101325).divNat 1000 = .fin ⟨false, 7130113003801805, -46⟩ := by
  refine ⟨?_, ?_, ?_, ?_⟩
  · show (toFixed2 ((JsNum.ofNat 101325).divNat 1000)).text = some "101.33"
    decide
  · show toFixed2 ((JsNum.ofNat 101325).divNat 1000) = .decimal false 10133
    decide
  · show parseFloat (toFixed2 ((JsNum.ofNat 101325).divNat 1000)) = roundQuot false 10133 100
    decide
  · decide

theorem sliceLast_length_le {α : Type} (n : Nat) (xs : List α) :
    (sliceLast n xs).length ≤ n := by
  simp only [sliceLast, List.length_drop]
  omega

theorem sliceLast_of_le {α : Type} (n : Nat) (xs : List α) (h : xs.length ≤ n) :
    sliceLast n xs = xs := by
  simp [sliceLast, Nat.sub_eq_zero_of_le h]

theorem sliceLast_append {α : Type} (n : Nat) (xs ys : List α) :
    sliceLast n (sliceLast n xs ++ ys) = sliceLast n (xs ++ ys) := by
  simp only [sliceLast, List.length_append, List.length_drop]
  rw [← List.drop_append_of_le_length (Nat.sub_le xs.length n), List.drop_drop]
  congr 1
  omega

theorem fetchSensor_history_le (c : Bool) (r : FetchResult Snapshot) (stamp time : String)
    (w : App) (h : w.sensorHistory.length ≤ MAX_POINTS) :
    (fetchSensor c r stamp time w).sensorHistory.length ≤ MAX_POINTS := by
  unfold fetchSensor
  split
  · cases c
    · exact sliceLast_length_le _ _
    · exact h
  · cases c <;> exact h

theorem sensorPolls_history_le (evs : List (Bool × FetchResult Snapshot × String × String)) :
    ∀ w : App, w.sensorHistory.length ≤ MAX_POINTS →
      (sensorPolls evs w).sensorHistory.length ≤ MAX_POINTS := by
  induction evs with
  | nil => intro w h; exact h
  | cons ev evs ih =>
    intro w h
    exact ih _ (fetchSensor_history_le ev.1 ev.2.1 ev.2.2.1 ev.2.2.2 w h)

theorem sensorPolls_ok_history (pts : List (String × String × Snapshot)) :
    ∀ w : App, w.sensorHistory.length ≤ MAX_POINTS →
      (sensorPolls (pts.map sensorOk) w).sensorHistory
        = sliceLast MAX_POINTS
            (w.sensorHistory ++ pts.map (fun p => chartEntry p.2.1 p.2.2)) := by
  induction pts with
  | nil =>
    intro w h
    simp [sensorPolls, sliceLast_of_le _ _ h]
  | cons p pts ih =>
    intro w _
    have step : sensorPolls ((p :: pts).map sensorOk) w
        = sensorPolls (pts.map sensorOk) (fetchSensor false (.response true (some p.2.2))
            p.1 p.2.1 w) := rfl
    rw [step, ih _ (fetchSensor_history_le _ _ _ _ w (by assumption))]
    simp only [fetchSensor, Bool.false_eq_true, if_false, List.map_cons]
    rw [sliceLast_append, List.append_assoc]
    rfl

/-- C4: from the empty history, after any sequence of handled sensor
responses the history has at most 20 points; after `n` successful polls it
is the chart points of the last `min n 20` of them, in arrival order (for
`n = 25`, points 6 to 25). -/
theorem sensorHistory_last20 :
    (∀ evs : List (Bool × FetchResult Snapshot × String × String),
      (sensorPolls evs App.init).sensorHistory.length ≤ 20) ∧
    (∀ pts : List (String × String × Snapshot),
      (sensorPolls (pts.map sensorOk) App.init).sensorHistory
          = (pts.map (fun p => chartEntry p.2.1 p.2.2)).drop (pts.length - 20) ∧
        (sensorPolls (pts.map sensorOk) App.init).sensorHistory.length
          = min pts.length 20) := by
  constructor
  · intro evs
    exact sensorPolls_history_le evs App.init (by decide)
  · intro pts
    have h := sensorPolls_ok_history pts App.init (by decide)
    have e : App.init.sensorHistory = [] := rfl
    rw [e, List.nil_append] at h
    rw [h]
    simp only [sliceLast, MAX_POINTS, List.length_map, List.length_drop, true_and]
    omega

/-! ## Media attachments -/

/-- C3 fails on the code: after a toggle from "motion" that settles on
"stream", the STREAM effect attaches one hls.js instance and the successful
probe of `retryLoadStream` a second one, whose cleanup nothing keeps: two
instances are attached to the video element and none is destroyed, in either
order of the effect and the probe. -/
theorem toggle_to_stream_two_attachments :
    motionState.hlsLive = [] ∧
    toggledState.mode = MODE.STREAM ∧ toggledState.acquisitions = 1 ∧
    attachedState.hlsLive = [0] ∧
    probedState.hlsLive = [1, 0] ∧ probedState.hlsLive.length = 2 ∧
    (commit hlsBrowser
      (retryLoadStream hlsBrowser (fun _ => .response true) toggledState)).hlsLive.length
        = 2 := by
  have hs : ∀ w : App,
      settleLoop (fun _ => .response true (some ⟨MODE.STREAM⟩)) 0 w
        = ({ w with settlePolls := w.settlePolls + 1 }, some MODE.STREAM) :=
    fun w => settleLoop_settled _ 0 w true MODE.STREAM (by decide) rfl (by decide) (by decide)
  have hc : ∀ w : App,
      check hlsBrowser (fun _ => .response true) 0 w
        = (attachHls hlsBrowser hlsBrowser.streamURL { w with probes := w.probes + 1 }).1 :=
    fun w => check_ok _ _ 0 w rfl
  simp only [probedState, attachedState, toggledState, toggleMode, retryLoadStream, hs, hc]
  decide

end PiStreamUI
